import Mathlib

/-!
# DocsPort sandboxed snippet execution: a shallow embedding

This file embeds the core of `src/backend/execution.py` — the static code
guard (`SecureCodeExecutor._validate_code`), the result value type
(`CodeExecutionResult` and its `to_dict`), the isolated runner
(`SecureCodeExecutor._execute_python_code`) and the outer entry point
(`SecureCodeExecutor.execute_code`) — and proves properties of them.

Modelling conventions:

* Python strings are Lean `String`s; `str.lower()` is modelled per-character
  with `Char.toLower`, which agrees with Python on ASCII text (every denylist
  entry and every input considered here is ASCII).
* Python's substring test `needle in hay` is modelled by `containsSub`, an
  executable scan proved equivalent to `List.IsInfix` below.
* Effects of the runner (the spawned child process, wall-clock time, scratch
  file deletion) are supplied by an explicit environment `ExecEnv` describing
  the outcome of the single spawned child and whether `unlink` raises.
  Exceptions are `Except String`; a Python `finally` whose body raises
  replaces the in-flight outcome, exactly as in CPython.
* Side effects the claims talk about (process spawned, scratch file created,
  kill signal sent, deletion attempted, history append attempted) are
  recorded in a trace returned alongside the result.
-/

/-- Python `needle in hay` on lists of characters: some position `i` of `hay`
starts an occurrence of `needle`. -/
def listContainsSub (hay needle : List Char) : Bool :=
  (List.range (hay.length + 1)).any fun i => needle.isPrefixOf (hay.drop i)

/-- Python `needle in hay` on strings. -/
def containsSub (hay needle : String) : Bool :=
  listContainsSub hay.data needle.data

/-- Python `code.lower()`, per-character (faithful on ASCII text). -/
def pyLower (s : String) : String :=
  ⟨s.data.map Char.toLower⟩

/-- The denylist of `SecureCodeExecutor._validate_code`
(src/backend/execution.py lines 89-131), verbatim. -/
def dangerous_operations : List String :=
  ["import os",
   "import sys",
   "import subprocess",
   "import shutil",
   "import socket",
   "import urllib",
   "import requests",
   "from os import",
   "from sys import",
   "from subprocess import",
   "from shutil import",
   "from socket import",
   "from urllib import",
   "from requests import",
   "exec(",
   "eval(",
   "compile(",
   "__import__(",
   "open(",
   "file(",
   "input(",
   "raw_input(",
   "exit(",
   "quit(",
   "globals(",
   "locals(",
   "vars(",
   "dir(",
   "getattr(",
   "setattr(",
   "delattr(",
   "hasattr(",
   "reload(",
   "importlib",
   "pickle",
   "cPickle",
   "marshal",
   "tempfile",
   "pathlib",
   "glob",
   "fnmatch"]

/-- `SecureCodeExecutor._validate_code` (src/backend/execution.py lines
87-139): lower-case the snippet, return `False` (deny) as soon as some
denylist entry occurs in it as a substring, else `True` (allow). -/
def _validate_code (code : String) : Bool :=
  let code_lower := pyLower code
  !(dangerous_operations.any fun operation => containsSub code_lower operation)

/-- The mutable result object `CodeExecutionResult` (lines 22-33).  The
constructor's defaults are `CodeExecutionResult.init`.  Wall-clock durations
are modelled as rationals. -/
structure CodeExecutionResult where
  output : String
  error_output : String
  return_code : Int
  execution_time : Rat
  timeout_occurred : Bool
  memory_usage : Nat
  execution_id : Nat
  timestamp : String
  deriving DecidableEq, Repr

/-- The field values set by `CodeExecutionResult.__init__` (the generated
`execution_id`/`timestamp` are abstracted to fixed values; no claim depends
on them). -/
def CodeExecutionResult.init : CodeExecutionResult :=
  { output := "", error_output := "", return_code := 0, execution_time := 0,
    timeout_occurred := false, memory_usage := 0, execution_id := 0,
    timestamp := "" }

/-- The dictionary built by `CodeExecutionResult.to_dict` (lines 35-47),
including the derived `success` entry. -/
structure ExecutionResultDict where
  execution_id : Nat
  output : String
  error_output : String
  return_code : Int
  execution_time : Rat
  timeout_occurred : Bool
  memory_usage : Nat
  timestamp : String
  success : Bool
  deriving DecidableEq, Repr

/-- `CodeExecutionResult.to_dict`: copies every field and derives
`success = (return_code == 0 and not timeout_occurred)` (line 46). -/
def CodeExecutionResult.to_dict (r : CodeExecutionResult) : ExecutionResultDict :=
  { execution_id := r.execution_id,
    output := r.output,
    error_output := r.error_output,
    return_code := r.return_code,
    execution_time := r.execution_time,
    timeout_occurred := r.timeout_occurred,
    memory_usage := r.memory_usage,
    timestamp := r.timestamp,
    success := decide (r.return_code = 0) && !r.timeout_occurred }

/-- Outcome of the single child process an execution spawns:
it completed in time with the given captured streams and exit status, it
exceeded the timeout (`subprocess.TimeoutExpired`), or file-write /
`Popen` / `communicate` raised some other exception with the given message. -/
inductive SpawnOutcome where
  | completed (stdout stderr : String) (returncode : Int)
  | timedOut
  | spawnError (msg : String)
  deriving DecidableEq, Repr

/-- Environment for one run of `_execute_python_code`: the child's outcome,
the measured wall-clock duration `time.time() - start_time`, and whether the
`finally`-block `temp_file.unlink()` raises (and with what message). -/
structure ExecEnv where
  outcome : SpawnOutcome
  duration : Rat
  unlinkFails : Bool
  unlinkMsg : String
  deriving DecidableEq, Repr

/-- Side effects of one `_execute_python_code` run. -/
structure RunTrace where
  fileCreated : Bool
  spawned : Bool
  sentKill : Bool
  unlinkAttempted : Bool
  deriving DecidableEq, Repr

/-- The `try` body of `_execute_python_code` (lines 148-176): write the
scratch file, spawn, wait with timeout.  On completion the streams, exit
status and duration are stored; on `TimeoutExpired` the child is killed and
the result gets `timeout_occurred = True`, `return_code = -1`, the message
naming the bound, and the measured duration (line 176 runs in both cases).
Any other exception propagates. -/
def _execute_python_body (timeout : Nat) (env : ExecEnv) :
    Except String CodeExecutionResult :=
  match env.outcome with
  | SpawnOutcome.completed out err rc =>
      Except.ok { CodeExecutionResult.init with
        output := out, error_output := err, return_code := rc,
        execution_time := env.duration }
  | SpawnOutcome.timedOut =>
      Except.ok { CodeExecutionResult.init with
        timeout_occurred := true,
        error_output := "Execution timed out after " ++ toString timeout ++ " seconds",
        return_code := -1,
        execution_time := env.duration }
  | SpawnOutcome.spawnError msg => Except.error msg

/-- `SecureCodeExecutor._execute_python_code` (lines 141-183): the body above
wrapped in `try ... finally: if temp_file.exists(): temp_file.unlink()`.
The scratch file exists on every path that reaches the `finally`, so deletion
is always attempted; if `unlink` raises, that exception replaces the body's
outcome (CPython `finally` semantics).  `process.kill()` on the timeout path
sends SIGKILL, recorded as `sentKill`. -/
def _execute_python_code (timeout : Nat) (env : ExecEnv) :
    Except String CodeExecutionResult × RunTrace :=
  let body := _execute_python_body timeout env
  (if env.unlinkFails then Except.error env.unlinkMsg else body,
   { fileCreated := true,
     spawned := match env.outcome with
       | SpawnOutcome.spawnError _ => false
       | _ => true,
     sentKill := match env.outcome with
       | SpawnOutcome.timedOut => true
       | _ => false,
     unlinkAttempted := true })

/-- Side effects of one `execute_code` call: the runner's trace plus whether
`_save_execution_history` was invoked (that call swallows its own database
errors internally, so invoking it never changes the result). -/
structure ExecTrace where
  fileCreated : Bool
  spawned : Bool
  sentKill : Bool
  unlinkAttempted : Bool
  saveAttempted : Bool
  deriving DecidableEq, Repr

/-- `Except.ok`-test used to characterise which branches reach the
history-append call. -/
def exceptIsOk : Except String CodeExecutionResult → Bool
  | Except.ok _ => true
  | Except.error _ => false

/-- `SecureCodeExecutor.execute_code` (lines 58-85).  Branches, in source
order: guard denial returns a fresh result with the fixed denial message and
`return_code = 1` without touching the filesystem, spawning, or saving
history; a `python` request runs `_execute_python_code` and then appends to
history; any other type yields an error result and still appends to history;
an exception escaping the `try` body (spawn or cleanup failure) is caught at
the outer boundary and converted to a result with `return_code = 1` and the
message as stderr — the history append at line 78 is skipped on that path. -/
def execute_code (code : String) (execution_type : String) (timeout : Nat)
    (env : ExecEnv) : ExecutionResultDict × ExecTrace :=
  if _validate_code code = false then
    (({ CodeExecutionResult.init with
        error_output := "Code contains forbidden operations",
        return_code := 1 }).to_dict,
     { fileCreated := false, spawned := false, sentKill := false,
       unlinkAttempted := false, saveAttempted := false })
  else if execution_type = "python" then
    match _execute_python_code timeout env with
    | (Except.ok r, tr) =>
        (r.to_dict,
         { fileCreated := tr.fileCreated, spawned := tr.spawned,
           sentKill := tr.sentKill, unlinkAttempted := tr.unlinkAttempted,
           saveAttempted := true })
    | (Except.error e, tr) =>
        (({ CodeExecutionResult.init with
            error_output := e, return_code := 1 }).to_dict,
         { fileCreated := tr.fileCreated, spawned := tr.spawned,
           sentKill := tr.sentKill, unlinkAttempted := tr.unlinkAttempted,
           saveAttempted := false })
  else
    (({ CodeExecutionResult.init with
        error_output := "Unsupported execution type: " ++ execution_type,
        return_code := 1 }).to_dict,
     { fileCreated := false, spawned := false, sentKill := false,
       unlinkAttempted := false, saveAttempted := true })

/-- Sanity check of the containment model against `List.IsInfix`: the
executable scan finds `needle` in `hay` exactly when `needle.data` is an
infix of `hay.data`. -/
theorem containsSub_iff_infix (hay needle : String) :
    containsSub hay needle = true ↔ needle.data <:+: hay.data := by
  unfold containsSub listContainsSub
  rw [List.any_eq_true]
  constructor
  · rintro ⟨i, _, hpre⟩
    have hp : needle.data <+: hay.data.drop i := by
      simp at hpre
      exact hpre
    exact hp.isInfix.trans (List.drop_suffix i hay.data).isInfix
  · rintro ⟨s, t, hst⟩
    refine ⟨s.length, List.mem_range.mpr ?_, ?_⟩
    · have : s.length ≤ hay.data.length := by
        rw [← hst]; simp
      omega
    · have hdrop : hay.data.drop s.length = needle.data ++ t := by
        rw [← hst]; simp
      rw [hdrop]
      simp

/-- Claim C1: the spec says normalization collapses runs of horizontal
whitespace so that `import  os` (double space) is denied and the run reports
`success = false`.  The code has no such normalization — `_validate_code`
only lower-cases — so `import  os` matches no denylist entry and is allowed,
and when the child then completes with exit status 0 the run reports
`success = true`.  This contradicts the repository's own test
`test_import_with_extra_spaces_blocked`. -/
theorem C1_double_space_import_is_allowed :
    _validate_code "import  os" = true ∧
    (execute_code "import  os" "python" 5
        ⟨SpawnOutcome.completed "" "" 0, 0, false, ""⟩).1.success = true := by
  constructor
  · decide
  · decide

/-- Claim C2: the spec says a denylist of double-underscore-wrapped
attribute names rejects `().__class__.__subclasses__()`.  No such list
exists in `_validate_code`: the snippet matches no entry of
`dangerous_operations`, is allowed, and a completing child with exit status
0 yields `success = true`.  This contradicts the repository's own test
`test_dunder_subclasses_blocked`. -/
theorem C2_dunder_escape_is_allowed :
    _validate_code "().__class__.__subclasses__()" = true ∧
    (execute_code "().__class__.__subclasses__()" "python" 5
        ⟨SpawnOutcome.completed "" "" 0, 0, false, ""⟩).1.success = true := by
  constructor
  · decide
  · decide

/-- Claim C3 as stated is false on the code: the import check is plain
substring containment, so `import osprey` — which merely contains the
denylist entry `import os` — is denied (`_validate_code` returns `false`),
not allowed. -/
theorem C3_counterexample_osprey_denied :
    ¬ (_validate_code "import osprey" = true) := by decide

/-- Claim C3 (amended): the Guard's import check uses case-insensitive
substring containment, not word-boundary matching: `import os` is denied,
and `import osprey` is denied as well, precisely because it contains
`import os` as a substring. -/
theorem C3_amended_substring_containment :
    _validate_code "import os" = false ∧
    _validate_code "import osprey" = false ∧
    containsSub (pyLower "import osprey") "import os" = true := by
  refine ⟨by decide, by decide, by decide⟩

/-- Claim C4: for every result value, the `success` entry of `to_dict`
equals `return_code == 0 AND NOT timeout_occurred`; in particular `success`
and `timeout_occurred` are never both true, whatever the exit status. -/
theorem C4_success_definition (r : CodeExecutionResult) :
    r.to_dict.success = (decide (r.return_code = 0) && !r.timeout_occurred) ∧
    (r.to_dict.success && r.timeout_occurred) = false := by
  refine ⟨rfl, ?_⟩
  simp only [CodeExecutionResult.to_dict]
  cases r.timeout_occurred <;> simp

/-- Claim C5: an exception escaping the spawned run (spawn failure or
cleanup failure) never propagates past `execute_code`: the outer handler
converts it into a result value with `return_code = 1` (non-zero), the
exception's message as stderr, and `success = false`. (That `execute_code`
always yields a result value at all is the totality of its Lean type.) -/
theorem C5_exception_becomes_result (code : String) (t : Nat) (env : ExecEnv)
    (msg : String) (hval : _validate_code code = true)
    (herr : (_execute_python_code t env).1 = Except.error msg) :
    (execute_code code "python" t env).1.return_code = 1 ∧
    (execute_code code "python" t env).1.error_output = msg ∧
    (execute_code code "python" t env).1.success = false := by
  rcases hE : _execute_python_code t env with ⟨res, tr⟩
  rw [hE] at herr
  simp only at herr
  subst herr
  simp [execute_code, hval, hE, CodeExecutionResult.to_dict]

/-- Witness for C5 at a concrete allowed snippet whose spawn raises. -/
theorem C5_witness :
    (execute_code "print(1)" "python" 5
        ⟨SpawnOutcome.spawnError "boom", 0, false, ""⟩).1.return_code = 1 ∧
    (execute_code "print(1)" "python" 5
        ⟨SpawnOutcome.spawnError "boom", 0, false, ""⟩).1.error_output = "boom" ∧
    (execute_code "print(1)" "python" 5
        ⟨SpawnOutcome.spawnError "boom", 0, false, ""⟩).1.success = false :=
  C5_exception_becomes_result "print(1)" 5
    ⟨SpawnOutcome.spawnError "boom", 0, false, ""⟩ "boom" (by decide) rfl

/-- Claim C6: on a timed-out child the runner sends the kill signal
(`process.kill()`, SIGKILL), and the result it builds has
`timeout_occurred = true`, the sentinel exit status `-1`, a stderr message
naming the configured bound, and the measured duration; when deletion of the
scratch file succeeds this is exactly the result `_execute_python_code`
returns. -/
theorem C6_timeout_path (t : Nat) (d : Rat) (uf : Bool) (um : String) :
    (_execute_python_code t ⟨SpawnOutcome.timedOut, d, uf, um⟩).2.sentKill = true ∧
    _execute_python_body t ⟨SpawnOutcome.timedOut, d, uf, um⟩ =
      Except.ok { CodeExecutionResult.init with
        timeout_occurred := true,
        error_output := "Execution timed out after " ++ toString t ++ " seconds",
        return_code := -1,
        execution_time := d } ∧
    (_execute_python_code t ⟨SpawnOutcome.timedOut, d, false, um⟩).1 =
      Except.ok { CodeExecutionResult.init with
        timeout_occurred := true,
        error_output := "Execution timed out after " ++ toString t ++ " seconds",
        return_code := -1,
        execution_time := d } := by
  refine ⟨rfl, rfl, rfl⟩

/-- Claim C7: on Guard denial, `execute_code` returns a result with
`success = false`, the fixed sentinel `return_code = 1`, the fixed denial
message (naming no pattern) as stderr, a zero duration, and no process was
spawned and no scratch file created. -/
theorem C7_guard_denial (code ty : String) (t : Nat) (env : ExecEnv)
    (hdeny : _validate_code code = false) :
    (execute_code code ty t env).1.success = false ∧
    (execute_code code ty t env).1.return_code = 1 ∧
    (execute_code code ty t env).1.error_output = "Code contains forbidden operations" ∧
    (execute_code code ty t env).1.execution_time = 0 ∧
    (execute_code code ty t env).2.spawned = false ∧
    (execute_code code ty t env).2.fileCreated = false := by
  simp [execute_code, hdeny, CodeExecutionResult.to_dict, CodeExecutionResult.init]

/-- Witness for C7 at the denied snippet `import os`. -/
theorem C7_witness :
    (execute_code "import os" "python" 30
        ⟨SpawnOutcome.completed "" "" 0, 0, false, ""⟩).1.success = false ∧
    (execute_code "import os" "python" 30
        ⟨SpawnOutcome.completed "" "" 0, 0, false, ""⟩).1.return_code = 1 ∧
    (execute_code "import os" "python" 30
        ⟨SpawnOutcome.completed "" "" 0, 0, false, ""⟩).1.error_output =
      "Code contains forbidden operations" ∧
    (execute_code "import os" "python" 30
        ⟨SpawnOutcome.completed "" "" 0, 0, false, ""⟩).1.execution_time = 0 ∧
    (execute_code "import os" "python" 30
        ⟨SpawnOutcome.completed "" "" 0, 0, false, ""⟩).2.spawned = false ∧
    (execute_code "import os" "python" 30
        ⟨SpawnOutcome.completed "" "" 0, 0, false, ""⟩).2.fileCreated = false :=
  C7_guard_denial "import os" "python" 30
    ⟨SpawnOutcome.completed "" "" 0, 0, false, ""⟩ (by decide)

/-- Claim C8 as stated is false on the code: on Guard denial `execute_code`
returns at line 68, before the history-append call at line 78, so the denied
request is never appended to the execution history. -/
theorem C8_counterexample_denial_not_recorded :
    (execute_code "import os" "python" 30
        ⟨SpawnOutcome.completed "" "" 0, 0, false, ""⟩).2.saveAttempted = false := by
  decide

/-- Claim C8 (amended): the result is appended to the execution history
exactly when the Guard allows the snippet and either the execution type is
not `python` or the python run returns without raising; the Guard-denial
branch and the exception branch (spawn or cleanup failure) return to the
caller without appending to history. -/
theorem C8_amended_history_characterisation (code ty : String) (t : Nat)
    (env : ExecEnv) :
    (execute_code code ty t env).2.saveAttempted =
      (_validate_code code &&
        (!(decide (ty = "python")) || exceptIsOk (_execute_python_code t env).1)) := by
  cases hv : _validate_code code with
  | false => simp [execute_code, hv]
  | true =>
    by_cases hty : ty = "python"
    · subst hty
      rcases hE : _execute_python_code t env with ⟨res, tr⟩
      cases res <;> simp [execute_code, hv, hE, exceptIsOk]
    · simp [execute_code, hv, hty]

/-- Claim C9 as stated is false on the code: with a child that completed
successfully (stdout `ok`, exit status 0) and a deletion that raises, the
`finally` block's exception replaces the primary result, and the caller
receives an error result (the deletion message, `success = false`, empty
stdout) instead of the unchanged primary result. -/
theorem C9_counterexample_unlink_failure_masks_result :
    (execute_code "print(1)" "python" 5
        ⟨SpawnOutcome.completed "ok" "" 0, 1, true, "unlink failed"⟩).1.success
      = false ∧
    (execute_code "print(1)" "python" 5
        ⟨SpawnOutcome.completed "ok" "" 0, 1, true, "unlink failed"⟩).1.output
      = "" ∧
    (execute_code "print(1)" "python" 5
        ⟨SpawnOutcome.completed "ok" "" 0, 1, true,
          "unlink failed"⟩).1.error_output = "unlink failed" := by
  refine ⟨by decide, by decide, by decide⟩

/-- Claim C9 (amended): the runner attempts to delete the scratch file on
every exit path, but a deletion failure is not swallowed inside the runner:
it escapes `_execute_python_code` (replacing the primary result) and is
caught at `execute_code`'s outer boundary, which returns an error result —
`return_code = 1`, the deletion message as stderr, `success = false` — in
place of the primary result; no exception reaches the caller. -/
theorem C9_amended_unlink_behaviour (code : String) (t : Nat) (env : ExecEnv) :
    (_execute_python_code t env).2.unlinkAttempted = true ∧
    (env.unlinkFails = true →
      (_execute_python_code t env).1 = Except.error env.unlinkMsg) ∧
    (env.unlinkFails = true → _validate_code code = true →
      (execute_code code "python" t env).1.error_output = env.unlinkMsg ∧
      (execute_code code "python" t env).1.return_code = 1 ∧
      (execute_code code "python" t env).1.success = false) := by
  refine ⟨rfl, ?_, ?_⟩
  · intro h
    simp [_execute_python_code, h]
  · intro h hval
    rcases hE : _execute_python_code t env with ⟨res, tr⟩
    have hres : res = Except.error env.unlinkMsg := by
      have := hE
      simp [_execute_python_code, h] at this
      exact this.1.symm
    subst hres
    simp [execute_code, hval, hE, CodeExecutionResult.to_dict]

/-- Witness for C9 at a successful child with a failing deletion. -/
theorem C9_witness :
    (execute_code "print(1)" "python" 5
        ⟨SpawnOutcome.completed "ok" "" 0, 1, true,
          "unlink failed"⟩).1.error_output = "unlink failed" ∧
    (execute_code "print(1)" "python" 5
        ⟨SpawnOutcome.completed "ok" "" 0, 1, true,
          "unlink failed"⟩).1.return_code = 1 ∧
    (execute_code "print(1)" "python" 5
        ⟨SpawnOutcome.completed "ok" "" 0, 1, true,
          "unlink failed"⟩).1.success = false :=
  (C9_amended_unlink_behaviour "print(1)" 5
    ⟨SpawnOutcome.completed "ok" "" 0, 1, true, "unlink failed"⟩).2.2
    rfl (by decide)

/-- Claim C10: `_validate_code` matches every denylist token as a
case-insensitive literal substring with no regard to context, so any snippet
whose lower-cased text contains a token anywhere — inside a string literal,
a comment, or a longer identifier — is denied. -/
theorem C10_any_token_substring_denies (code op : String)
    (hmem : op ∈ dangerous_operations)
    (hsub : containsSub (pyLower code) op = true) :
    _validate_code code = false := by
  unfold _validate_code
  have hany :
      (dangerous_operations.any fun operation =>
        containsSub (pyLower code) operation) = true :=
    List.any_eq_true.mpr ⟨op, hmem, hsub⟩
  simp [hany]

/-- Witness for C10: `global_config = 1` contains the token `glob` and
`print("dir(")` contains the token `dir(`; both are denied although neither
performs a forbidden operation. -/
theorem C10_witness :
    _validate_code "global_config = 1" = false ∧
    _validate_code "print(\"dir(\")" = false :=
  ⟨C10_any_token_substring_denies "global_config = 1" "glob"
      (by decide) (by decide),
   C10_any_token_substring_denies "print(\"dir(\")" "dir("
      (by decide) (by decide)⟩
